import Mathlib

/-!
Verification development for the digitalSign template-driven image
processing service.  The definitions below are a shallow embedding of the
JavaScript source:

* `ImageProcessingService` (src/src/services/imageProcessingService.js):
  the pipeline orchestrator `processImage` and the stage functions
  `applyDimensions`, `applyFilters`, `applyBox`, `applyWatermark`.
* `TemplateService` (same file, second module): `setDefaultTemplate` and
  `deleteTemplate` over a list model of the persistent store.
* `UploadController.uploadSingle` (src/unnamed/part_000): the upload
  lifecycle state machine, modelled as explicit state passing that records
  every successive stored state of the Upload row.

Images are modelled at the level the claims speak about: width, height and
the list of decorations composited onto the pixel buffer.  The external
sharp library is modelled at its documented interface (extract fails on a
region outside the image; resize with a target box produces that box for
the exact-box fit modes).  External collaborators (Prisma store, Cloudinary
storage, the filesystem) are modelled as oracle fields of an environment
record, so every theorem quantifies over all of their outcomes.
-/

namespace DigitalSign

/-- Upload status strings stored in the `status` column of the `uploads`
table (prisma migration: default 'pending'). -/
inductive Status where
  | pending
  | processing
  | completed
  | failed
deriving DecidableEq, Repr

/-- Template row, following the prisma `templates` schema and the fields
read by the stage functions.  Nullable columns are `Option`; the box
geometry columns are modelled as present values (as they are in every
claim scenario), matching the destructuring defaults of `applyBox` for
templates that carry the fields.  Color and opacity columns that no claim
measures (boxColor, boxBorderColor, boxShadowColor, boxShadowOpacity,
watermarkOpacity) are carried as data but never interpreted. -/
structure Template where
  id : String
  name : String
  width : Nat
  height : Nat
  quality : Nat
  format : String
  fit : String
  cropX : Option Int
  cropY : Option Int
  cropWidth : Option Int
  cropHeight : Option Int
  backgroundColor : Option String
  brightness : Option Rat
  contrast : Option Rat
  saturation : Option Rat
  hue : Option Rat
  blur : Option Rat
  sharpen : Option Rat
  boxEnabled : Bool
  boxColor : String
  boxPadding : Nat
  boxBorderWidth : Nat
  boxBorderColor : String
  boxBorderRadius : Nat
  boxShadowEnabled : Bool
  boxShadowBlur : Nat
  boxShadowOffsetX : Int
  boxShadowOffsetY : Int
  boxShadowOpacity : Rat
  boxShadowColor : String
  watermarkEnabled : Bool
  watermarkText : Option String
  watermarkPosition : Option String
  watermarkOpacity : Option Rat
  watermarkSize : Option Nat
  progressive : Bool
  stripMetadata : Bool
  isActive : Bool
  isDefault : Bool
deriving DecidableEq, Repr

/-- Decorations composited onto the working pixel buffer by the Frame and
Watermark stages. -/
inductive Decoration where
  | box
  | watermark
deriving DecidableEq, Repr

/-- The working image of the sharp pipeline, abstracted to the data the
claims are about: dimensions plus the decorations composited so far. -/
structure SImage where
  width : Nat
  height : Nat
  decorations : List Decoration := []
deriving DecidableEq, Repr

/-- Region argument of sharp `extract` as built by `applyDimensions`
(left := cropX, top := cropY, width := cropWidth, height := cropHeight). -/
structure ExtractRegion where
  left : Int
  top : Int
  width : Int
  height : Int
deriving DecidableEq, Repr

/-- Whether an extract region lies inside the image: sharp requires
non-negative offsets, positive size, and the region to fit inside the
input bounds. -/
def regionFits (img : SImage) (r : ExtractRegion) : Bool :=
  0 ≤ r.left && 0 ≤ r.top && 0 < r.width && 0 < r.height &&
    r.left + r.width ≤ (img.width : Int) && r.top + r.height ≤ (img.height : Int)

/-- Model of the external sharp `extract` operation: cropping a region
that exceeds the original bounds fails (sharp raises
"extract_area: bad extract area" when the pipeline is evaluated;
`processImage` observes it as a thrown error either way). -/
def sharpExtract (img : SImage) (r : ExtractRegion) : Except String SImage :=
  if regionFits img r then
    Except.ok { width := r.width.toNat, height := r.height.toNat, decorations := img.decorations }
  else
    Except.error "extract_area: bad extract area"

/-- Mirror of `ImageProcessingService.getSharpFit`: the identity on the
five recognized fit modes, 'cover' for anything else. -/
def getSharpFit (templateFit : String) : String :=
  if templateFit = "cover" ∨ templateFit = "contain" ∨ templateFit = "fill" ∨
      templateFit = "inside" ∨ templateFit = "outside" then
    templateFit
  else
    "cover"

/-- Model of the external sharp `resize` with both target dimensions given
and `withoutEnlargement:false`: cover/contain/fill produce exactly the
target box; inside/outside scale both dimensions by the smaller/larger of
the two ratios, preserving aspect within rounding. -/
def sharpResize (img : SImage) (width height : Nat) (fit : String) : SImage :=
  if fit = "inside" ∨ fit = "outside" then
    if img.width = 0 ∨ img.height = 0 then { img with width := width, height := height }
    else
      let rw : Rat := (width : Rat) / (img.width : Rat)
      let rh : Rat := (height : Rat) / (img.height : Rat)
      let f : Rat := if fit = "inside" then min rw rh else max rw rh
      { img with
        width := (round ((img.width : Rat) * f)).toNat,
        height := (round ((img.height : Rat) * f)).toNat }
  else
    { img with width := width, height := height }

/-- Truthiness of a nullable integer column in a JavaScript conjunction
(`cropWidth && cropHeight`): present and non-zero. -/
def intTruthy (v : Option Int) : Bool :=
  match v with
  | some n => n ≠ 0
  | none => false

/-- Guard of the manual-crop branch of `applyDimensions`
(`cropX !== null && cropY !== null && cropWidth && cropHeight`). -/
def cropRequested (t : Template) : Bool :=
  t.cropX.isSome && t.cropY.isSome && intTruthy t.cropWidth && intTruthy t.cropHeight

/-- The extract region built from the template crop columns. -/
def cropRegion (t : Template) : ExtractRegion :=
  { left := t.cropX.getD 0, top := t.cropY.getD 0,
    width := t.cropWidth.getD 0, height := t.cropHeight.getD 0 }

/-- Geometry stage, `ImageProcessingService.applyDimensions`: manual crop
first when requested, then resize to the template box with the mapped fit
mode.  (The `backgroundColor` resize option affects letterbox fill only,
not dimensions.) -/
def applyDimensions (img : SImage) (t : Template) : Except String SImage :=
  match (if cropRequested t then sharpExtract img (cropRegion t) else Except.ok img) with
  | Except.error e => Except.error e
  | Except.ok cropped => Except.ok (sharpResize cropped t.width t.height (getSharpFit t.fit))

/-- Adjustments of the Tone stage in the order `applyFilters` chains them
onto the sharp pipeline. -/
inductive ToneOp where
  | modulate (brightness : Option Rat) (saturation : Option Rat) (hue : Option Rat)
  | linear (a : Rat) (b : Rat)
  | blur (sigma : Rat)
  | sharpen (sigma : Rat)
deriving DecidableEq, Repr

/-- Position of each adjustment in the fixed chaining order of
`applyFilters`: modulate, then linear, then blur, then sharpen. -/
def toneIndex : ToneOp → Nat
  | ToneOp.modulate _ _ _ => 0
  | ToneOp.linear _ _ => 1
  | ToneOp.blur _ => 2
  | ToneOp.sharpen _ => 3

/-- Modulate block of `applyFilters`: chained when any of
brightness/saturation/hue is non-null, with brightness and saturation
factors 1 + value/100 and the hue in degrees. -/
def modulateSeg (t : Template) : List ToneOp :=
  if t.brightness.isSome ∨ t.saturation.isSome ∨ t.hue.isSome then
    [ToneOp.modulate (t.brightness.map (fun b => 1 + b / 100))
      (t.saturation.map (fun s => 1 + s / 100)) t.hue]
  else []

/-- Contrast block of `applyFilters`: `image.linear(a, b)` with
a = 1 + contrast/100 and b = 128·(1 - a), chained when contrast is
non-null. -/
def contrastSeg (t : Template) : List ToneOp :=
  match t.contrast with
  | some c => [ToneOp.linear (1 + c / 100) (128 * (1 - (1 + c / 100)))]
  | none => []

/-- Blur block of `applyFilters`: chained when blur is non-null and
positive. -/
def blurSeg (t : Template) : List ToneOp :=
  match t.blur with
  | some b => if 0 < b then [ToneOp.blur b] else []
  | none => []

/-- Sharpen block of `applyFilters`: chained when sharpen is non-null and
positive. -/
def sharpenSeg (t : Template) : List ToneOp :=
  match t.sharpen with
  | some s => if 0 < s then [ToneOp.sharpen s] else []
  | none => []

/-- Tone stage, `ImageProcessingService.applyFilters`, as the list of
operations chained onto the image in source order: modulate, then linear
contrast, then blur, then sharpen. -/
def applyFilters (t : Template) : List ToneOp :=
  modulateSeg t ++ contrastSeg t ++ blurSeg t ++ sharpenSeg t

/-- Per-channel effect of sharp `linear(a, b)` on an 8-bit pixel value:
a·input + b, clamped to the representable range. -/
def linearApply (a b x : Rat) : Rat :=
  max 0 (min 255 (a * x + b))

/-- Shadow margin computed by `applyBox`
(`boxShadowEnabled ? max(|offsetX|, |offsetY|) + shadowBlur : 0`). -/
def shadowMargin (t : Template) : Nat :=
  if t.boxShadowEnabled then
    max t.boxShadowOffsetX.natAbs t.boxShadowOffsetY.natAbs + t.boxShadowBlur
  else 0

/-- Frame stage, `ImageProcessingService.applyBox`.  Disabled templates
pass through.  When enabled the stage renders an SVG canvas of
boxWidth + 2·shadowOffset by boxHeight + 2·shadowOffset, where
boxWidth = width + 2·padding + 2·borderWidth, and composites the image
onto it; the whole body is inside a try/catch whose catch logs and
returns the unmodified input, modelled by the `renderOk` oracle. -/
def applyBox (img : SImage) (t : Template) (renderOk : Bool) : SImage :=
  if !t.boxEnabled then img
  else if renderOk then
    let totalPadding := t.boxPadding * 2
    let totalBorder := t.boxBorderWidth * 2
    let shadowOffset := shadowMargin t
    let boxWidth := img.width + totalPadding + totalBorder
    let boxHeight := img.height + totalPadding + totalBorder
    { width := boxWidth + shadowOffset * 2,
      height := boxHeight + shadowOffset * 2,
      decorations := img.decorations ++ [Decoration.box] }
  else img

/-- Guard of `applyWatermark`
(`!template.watermarkEnabled || !template.watermarkText` returns the
input unchanged; the empty string is falsy). -/
def watermarkActive (t : Template) : Bool :=
  t.watermarkEnabled &&
    (match t.watermarkText with
     | some s => s ≠ ""
     | none => false)

/-- Watermark stage, `ImageProcessingService.applyWatermark`: composites
an SVG text overlay over the image (dimensions unchanged); the rendering
is inside a try/catch whose catch logs and falls through to return the
input, modelled by the `renderOk` oracle. -/
def applyWatermark (img : SImage) (t : Template) (renderOk : Bool) : SImage :=
  if !watermarkActive t then img
  else if renderOk then
    { img with decorations := img.decorations ++ [Decoration.watermark] }
  else img

/-- Stages of the documented pipeline design. -/
inductive Stage where
  | geometry
  | tone
  | frame
  | watermark
  | encode
deriving DecidableEq, Repr

/-- The stage order documented for the full pipeline:
Geometry, Tone, Frame, Watermark, Encode. -/
def fullStageOrder : List Stage :=
  [Stage.geometry, Stage.tone, Stage.frame, Stage.watermark, Stage.encode]

/-- Payload of a successful `processImage` run (`result.data`). -/
structure ProcessData where
  originalWidth : Nat
  originalHeight : Nat
  processedWidth : Nat
  processedHeight : Nat
  format : String
  size : Nat
deriving DecidableEq, Repr

/-- The typed result `processImage` returns:
`{success:true, data}` or `{success:false, error}`. -/
inductive PipelineResult where
  | success (data : ProcessData)
  | failure (error : String)
deriving DecidableEq, Repr

/-- Whether a pipeline result is the success variant. -/
def resultOk : PipelineResult → Bool
  | PipelineResult.success _ => true
  | PipelineResult.failure _ => false

/-- Oracle for the filesystem and decoder interactions of `processImage`:
the metadata of the input file (`none` when the input is not a decodable
image, making `sharp(inputPath).metadata()` throw), whether writing the
output file succeeds, and the byte size `fs.stat` reports for the written
output. -/
structure PipelineEnv where
  inputImage : Option SImage
  toFileOk : Bool
  outputSize : Nat
deriving DecidableEq, Repr

/-- Tone stage viewed as an image transformation: modulate, linear, blur
and sharpen act per pixel and keep the buffer dimensions, so on the
dimension-and-decoration abstraction the stage is the identity.  The
operation list it chains is `applyFilters`. -/
def applyFiltersImage (img : SImage) (_t : Template) : SImage :=
  img

/-- Encode stage, `ImageProcessingService.applyOutputOptions`: selects the
codec and its quality/progressive/metadata options from the template; it
changes neither dimensions nor decorations of the buffer. -/
def applyOutputOptions (img : SImage) (_t : Template) : SImage :=
  img

/-- Pipeline orchestrator `ImageProcessingService.processImage` as the
source executes it: read metadata, run `applyDimensions`, write the file,
reread metadata and stat the file; every thrown error is caught and
returned as `{success:false, error}`.  The calls to `applyFilters`,
`applyBox`, `applyWatermark` and `applyOutputOptions` are commented out in
the source (lines 30-33), so only the Geometry stage runs; the second
component records the trace of stages actually executed.  The reported
format is the format sharp infers for the output path, whose extension
the caller derives from `template.format`. -/
def processImage (env : PipelineEnv) (t : Template) : PipelineResult × List Stage :=
  match env.inputImage with
  | none => (PipelineResult.failure "Input file contains unsupported image format", [])
  | some img =>
    match applyDimensions img t with
    | Except.error e => (PipelineResult.failure e, [Stage.geometry])
    | Except.ok processed =>
      if env.toFileOk then
        (PipelineResult.success
          { originalWidth := img.width, originalHeight := img.height,
            processedWidth := processed.width, processedHeight := processed.height,
            format := t.format, size := env.outputSize }, [Stage.geometry])
      else
        (PipelineResult.failure "unable to write output file", [Stage.geometry])

/-- The pipeline with the commented-out stage calls of `processImage`
(source lines 29-33) re-enabled, i.e. the wiring the surrounding schema
and stage functions are written for: Geometry, then Tone, then Frame, then
Watermark, then Encode, then write.  `boxOk` and `wmOk` are the rendering
oracles of the two decoration stages. -/
def processImageFull (env : PipelineEnv) (t : Template) (boxOk wmOk : Bool) :
    PipelineResult × List Stage :=
  match env.inputImage with
  | none => (PipelineResult.failure "Input file contains unsupported image format", [])
  | some img =>
    match applyDimensions img t with
    | Except.error e => (PipelineResult.failure e, [Stage.geometry])
    | Except.ok sized =>
      let toned := applyFiltersImage sized t
      let framed := applyBox toned t boxOk
      let marked := applyWatermark framed t wmOk
      let encoded := applyOutputOptions marked t
      if env.toFileOk then
        (PipelineResult.success
          { originalWidth := img.width, originalHeight := img.height,
            processedWidth := encoded.width, processedHeight := encoded.height,
            format := t.format, size := env.outputSize }, fullStageOrder)
      else
        (PipelineResult.failure "unable to write output file", fullStageOrder)

/-- Upload row, following the prisma `uploads` schema restricted to the
columns `uploadSingle` writes after creation.  (The immutable source
descriptor columns set once at creation are not tracked.) -/
structure UploadRecord where
  status : Status
  processedPath : Option String
  originalWidth : Option Nat
  originalHeight : Option Nat
  processedWidth : Option Nat
  processedHeight : Option Nat
  cloudinaryId : Option String
  cloudinaryUrl : Option String
  errorMessage : Option String
deriving DecidableEq, Repr

/-- The record as `prisma.upload.create` stores it: status 'pending',
every later-populated column null. -/
def initialRecord : UploadRecord :=
  { status := Status.pending, processedPath := none,
    originalWidth := none, originalHeight := none,
    processedWidth := none, processedHeight := none,
    cloudinaryId := none, cloudinaryUrl := none, errorMessage := none }

/-- Payload of a successful Cloudinary upload as consumed by
`uploadSingle` (`public_id` and `url`). -/
structure StorageData where
  publicId : String
  url : String
deriving DecidableEq, Repr

/-- Oracle environment for one `uploadSingle` request: the request shape
and the outcomes of every external collaborator call.  `templateFound`
is the `getTemplateById` result consulted when `templateId` is present
(`none` models not-found or a store error, both of which the controller
turns into a thrown error).  `failUpdateOk` is the outcome of the
status:'failed' update in the catch block, which carries its own
`.catch` handler.  The intermediate updates are modelled as succeeding;
a failure there lands in the same catch block and only adds
pending→failed / processing→failed paths that already exist. -/
structure UploadEnv where
  hasFile : Bool
  mimeIsImage : Bool
  mimeIsVideo : Bool
  templateId : Option String
  templateFound : Option Template
  createOk : Bool
  pipelineEnv : PipelineEnv
  storageResult : Except String StorageData
  failUpdateOk : Bool
deriving Repr

/-- HTTP-level outcome of `uploadSingle`: the early 400 before any record
exists, the 201 success response, or the 500 error response. -/
inductive UploadOutcome where
  | noFile
  | ok
  | errored (msg : String)
deriving DecidableEq, Repr

/-- Observable effects of one `uploadSingle` request: every successive
stored state of the Upload row (creation state first), whether the
storage collaborator was called, and the response. -/
structure UploadRun where
  history : List UploadRecord
  storageCalled : Bool
  outcome : UploadOutcome
deriving Repr

/-- Catch block of `uploadSingle`: when a record exists, update it to
status 'failed' with the error message (this update has its own `.catch`,
so when it fails — `failUpdateOk = false` — no state is appended), then
answer 500. -/
def failRun (hist : List UploadRecord) (storage : Bool) (failUpdateOk : Bool)
    (msg : String) : UploadRun :=
  { history :=
      if failUpdateOk then
        hist ++ [{ hist.getLast?.getD initialRecord with
                   status := Status.failed, errorMessage := some msg }]
      else hist,
    storageCalled := storage,
    outcome := UploadOutcome.errored msg }

/-- Storage step of `uploadSingle`: call Cloudinary (image or video — the
result shape is the same), then on success persist public id, url and
status 'completed' in one update and answer 201; on failure throw into
the catch block. -/
def uploadStorage (env : UploadEnv) (hist : List UploadRecord) : UploadRun :=
  match env.storageResult with
  | Except.error e =>
    failRun hist true env.failUpdateOk ("Cloudinary upload failed: " ++ e)
  | Except.ok s =>
    let last := hist.getLast?.getD initialRecord
    { history := hist ++ [{ last with
        cloudinaryId := some s.publicId,
        cloudinaryUrl := some s.url,
        status := Status.completed }],
      storageCalled := true,
      outcome := UploadOutcome.ok }

/-- Processing branch of `uploadSingle`, taken when a template was found
and the file is an image: update status to 'processing', run
`processImage`, throw on a pipeline failure, persist the processed path
and the four dimension columns, then continue with storage. -/
def uploadProcessing (env : UploadEnv) (r0 : UploadRecord) (t : Template) : UploadRun :=
  let r1 := { r0 with status := Status.processing }
  match (processImage env.pipelineEnv t).1 with
  | PipelineResult.failure e =>
    failRun [r0, r1] false env.failUpdateOk ("Image processing failed: " ++ e)
  | PipelineResult.success d =>
    let r2 := { r1 with
      processedPath := some "processed",
      originalWidth := some d.originalWidth,
      originalHeight := some d.originalHeight,
      processedWidth := some d.processedWidth,
      processedHeight := some d.processedHeight }
    uploadStorage env [r0, r1, r2]

/-- Upload lifecycle `UploadController.uploadSingle`
(src/unnamed/part_000, lines 16-179), as explicit state passing.  The
branch structure mirrors the source: reject when no file was sent; create
the record with status 'pending'; resolve the template when a templateId
was sent, throwing when the lookup fails; process the image when a
template was found and the file is an image; hand the bytes to the
storage collaborator; persist the storage identifiers together with
status 'completed'; every thrown error is handled by the single catch
block (`failRun`). -/
def uploadSingle (env : UploadEnv) : UploadRun :=
  if !env.hasFile then
    { history := [], storageCalled := false, outcome := UploadOutcome.noFile }
  else if !env.createOk then
    { history := [], storageCalled := false,
      outcome := UploadOutcome.errored "record creation failed" }
  else
    let r0 := initialRecord
    match env.templateId with
    | some _ =>
      match env.templateFound with
      | none => failRun [r0] false env.failUpdateOk "Template not found"
      | some t =>
        if env.mimeIsImage then uploadProcessing env r0 t
        else uploadStorage env [r0]
    | none => uploadStorage env [r0]

/-- Consecutive deduplication: the sequence of distinct stored statuses,
so that an update that keeps the status (the processed-info update) is
not read as a transition. -/
def squeeze : List Status → List Status
  | [] => []
  | [a] => [a]
  | a :: b :: rest => if a = b then squeeze (b :: rest) else a :: squeeze (b :: rest)

/-- The sequence of distinct statuses the Upload row moves through in one
`uploadSingle` request. -/
def statusTrace (env : UploadEnv) : List Status :=
  squeeze ((uploadSingle env).history.map (fun r => r.status))

/-- Status transitions the spec state machine allows: from pending only
processing or failed, from processing only completed or failed, nothing
out of completed or failed. -/
def specAllowedStep : Status → Status → Bool
  | Status.pending, Status.processing => true
  | Status.pending, Status.failed => true
  | Status.processing, Status.completed => true
  | Status.processing, Status.failed => true
  | _, _ => false

/-- Status transitions `uploadSingle` can actually make: additionally
pending → completed, taken when no template processing happens before the
storage step (no template attached, or a non-image file). -/
def codeAllowedStep : Status → Status → Bool
  | Status.pending, Status.processing => true
  | Status.pending, Status.completed => true
  | Status.pending, Status.failed => true
  | Status.processing, Status.completed => true
  | Status.processing, Status.failed => true
  | _, _ => false

/-- Clearing step of `TemplateService.setDefaultTemplate`:
`updateMany({where:{isDefault:true}, data:{isDefault:false}})` over the
list model of the `templates` table. -/
def clearDefaults (db : List Template) : List Template :=
  db.map (fun t => if t.isDefault then { t with isDefault := false } else t)

/-- TemplateService.setDefaultTemplate: first remove the default flag from
every template that has it, then set `isDefault` and `isActive` on the
requested id.  `prisma.template.update` throws when no row matches, which
the catch turns into a failure result; the clearing step is not inside a
transaction, so its effect persists either way. -/
def setDefaultTemplate (db : List Template) (id : String) :
    List Template × Except String Template :=
  match (clearDefaults db).find? (fun t => t.id == id) with
  | none => (clearDefaults db, Except.error "Record to update not found.")
  | some t0 =>
    ((clearDefaults db).map (fun t =>
      if t.id = id then { t0 with isDefault := true, isActive := true } else t),
     Except.ok { t0 with isDefault := true, isActive := true })

/-- Upload row reduced to the columns `deleteTemplate` counts by. -/
structure UploadRow where
  id : String
  templateId : Option String
deriving DecidableEq, Repr

/-- TemplateService.deleteTemplate: count the uploads whose `templateId`
references the template; when the count is positive, answer a failure
naming the count and delete nothing; otherwise delete the row
(`prisma.template.delete` throws into the catch when no row matches). -/
def deleteTemplate (templates : List Template) (uploads : List UploadRow)
    (id : String) : List Template × Except String String :=
  if 0 < uploads.countP (fun u => u.templateId == some id) then
    (templates,
     Except.error ("Cannot delete template. It has " ++
       toString (uploads.countP (fun u => u.templateId == some id)) ++
       " associated uploads."))
  else if templates.any (fun t => t.id == id) then
    (templates.filter (fun t => !(t.id == id)), Except.ok "Template deleted successfully")
  else
    (templates, Except.error "Record to delete does not exist.")

/-- Concrete template used as the base of the test fixtures: the seeded
'Social Media Square' template (1080x1080 jpeg, fit cover). -/
def tmplBase : Template :=
  { id := "t1", name := "Social Media Square", width := 1080, height := 1080,
    quality := 85, format := "jpeg", fit := "cover",
    cropX := none, cropY := none, cropWidth := none, cropHeight := none,
    backgroundColor := none,
    brightness := none, contrast := none, saturation := none, hue := none,
    blur := none, sharpen := none,
    boxEnabled := false, boxColor := "#ffffff", boxPadding := 20,
    boxBorderWidth := 0, boxBorderColor := "#000000", boxBorderRadius := 0,
    boxShadowEnabled := false, boxShadowBlur := 10,
    boxShadowOffsetX := 5, boxShadowOffsetY := 5,
    boxShadowOpacity := 3 / 10, boxShadowColor := "#000000",
    watermarkEnabled := false, watermarkText := none, watermarkPosition := none,
    watermarkOpacity := none, watermarkSize := none,
    progressive := true, stripMetadata := true, isActive := true, isDefault := false }

/-- Template that enables every disabled stage: tone adjustments, frame,
watermark. -/
def tmplFull : Template :=
  { tmplBase with
    contrast := some 10
    brightness := some 5
    boxEnabled := true
    boxShadowEnabled := true
    watermarkEnabled := true
    watermarkText := some "digitalSign" }

/-- Template with contrast 0 for the Tone identity scenario. -/
def tmplTone : Template :=
  { tmplBase with contrast := some 0 }

/-- Template of the Frame scenario: frame enabled, padding 20, border 0,
shadow enabled with blur 10, offsets (5, 5). -/
def tmplFrame : Template :=
  { tmplBase with
    boxEnabled := true
    boxShadowEnabled := true
    boxPadding := 20
    boxBorderWidth := 0
    boxShadowBlur := 10
    boxShadowOffsetX := 5
    boxShadowOffsetY := 5 }

/-- Template of the invalid-crop scenario: manual crop rectangle
x 100, y 100, width 5000, height 5000. -/
def tmplCrop : Template :=
  { tmplBase with
    cropX := some 100
    cropY := some 100
    cropWidth := some 5000
    cropHeight := some 5000 }

/-- A 500x500 input buffer. -/
def img500 : SImage := { width := 500, height := 500 }

/-- An 800x600 input buffer. -/
def img800 : SImage := { width := 800, height := 600 }

/-- A 1920x1080 input buffer. -/
def img1920 : SImage := { width := 1920, height := 1080 }

/-- Pipeline oracle where every filesystem interaction succeeds on a
1920x1080 input. -/
def envOk : PipelineEnv :=
  { inputImage := some img1920, toFileOk := true, outputSize := 204800 }

/-- Pipeline oracle with an 800x600 input. -/
def env800 : PipelineEnv :=
  { inputImage := some img800, toFileOk := true, outputSize := 102400 }

/-- Upload request with no template attached and a successful storage
call. -/
def envNoTemplate : UploadEnv :=
  { hasFile := true, mimeIsImage := true, mimeIsVideo := false,
    templateId := none, templateFound := none, createOk := true,
    pipelineEnv := envOk,
    storageResult := Except.ok { publicId := "uploads/abc", url := "https://res.example/abc" },
    failUpdateOk := true }

/-- Upload request with the base template attached, processing and
storage both succeeding. -/
def envWithTemplate : UploadEnv :=
  { envNoTemplate with
    templateId := some "t1"
    templateFound := some tmplBase }

/-- Upload request with the invalid-crop template on an 800x600 image. -/
def envCrop : UploadEnv :=
  { envNoTemplate with
    templateId := some "t1"
    templateFound := some tmplCrop
    pipelineEnv := env800 }

/-- C5: with the frame enabled, the Frame stage canvas dimensions equal
the input dimensions plus 2·padding + 2·borderWidth + 2·shadowMargin on
each axis, where shadowMargin = max(|offsetX|, |offsetY|) + shadowBlur
when the shadow is enabled and 0 otherwise. -/
theorem applyBox_canvas_dims (img : SImage) (t : Template) (h : t.boxEnabled = true) :
    shadowMargin t =
      (if t.boxShadowEnabled then
        max t.boxShadowOffsetX.natAbs t.boxShadowOffsetY.natAbs + t.boxShadowBlur
      else 0) ∧
    (applyBox img t true).width =
      img.width + 2 * t.boxPadding + 2 * t.boxBorderWidth + 2 * shadowMargin t ∧
    (applyBox img t true).height =
      img.height + 2 * t.boxPadding + 2 * t.boxBorderWidth + 2 * shadowMargin t := by
  unfold applyBox
  rw [h]
  refine ⟨rfl, ?_, ?_⟩ <;> simp <;> omega

/-- Witness for applyBox_canvas_dims: the 500x500 input with padding 20,
border 0, shadow blur 10 and offsets (5, 5) yields a 570x570 canvas. -/
theorem applyBox_canvas_dims_witness :
    tmplFrame.boxEnabled = true ∧
    (applyBox img500 tmplFrame true).width = 570 ∧
    (applyBox img500 tmplFrame true).height = 570 := by
  have h := applyBox_canvas_dims img500 tmplFrame rfl
  exact ⟨rfl, h.2.1.trans (by decide), h.2.2.trans (by decide)⟩

/-- C6: the Tone stage chains its adjustments in the fixed order
modulate (brightness/saturation/hue), then linear contrast with
a = 1 + contrast/100 and b = 128·(1 - a), then blur, then sharpen; for
contrast = 0 the contrast step is linear 1 0, which is the identity on
8-bit pixel values. -/
theorem applyFilters_order_and_contrast (t : Template) (c : Rat)
    (hc : t.contrast = some c) :
    List.Chain' (fun o1 o2 => toneIndex o1 < toneIndex o2) (applyFilters t) ∧
    ToneOp.linear (1 + c / 100) (128 * (1 - (1 + c / 100))) ∈ applyFilters t ∧
    (c = 0 →
      ToneOp.linear (1 + c / 100) (128 * (1 - (1 + c / 100))) = ToneOp.linear 1 0 ∧
      ∀ x : Rat, 0 ≤ x → x ≤ 255 →
        linearApply (1 + c / 100) (128 * (1 - (1 + c / 100))) x = x) := by
  have hmod : ∀ o ∈ modulateSeg t, toneIndex o = 0 := by
    intro o ho
    unfold modulateSeg at ho
    split_ifs at ho <;> simp at ho
    subst ho; rfl
  have hcon : ∀ o ∈ contrastSeg t, toneIndex o = 1 := by
    intro o ho
    unfold contrastSeg at ho
    cases h2 : t.contrast <;> rw [h2] at ho <;> simp at ho
    subst ho; rfl
  have hblur : ∀ o ∈ blurSeg t, toneIndex o = 2 := by
    intro o ho
    unfold blurSeg at ho
    cases h2 : t.blur <;> rw [h2] at ho <;> simp at ho
    rw [ho.2]; rfl
  have hsharp : ∀ o ∈ sharpenSeg t, toneIndex o = 3 := by
    intro o ho
    unfold sharpenSeg at ho
    cases h2 : t.sharpen <;> rw [h2] at ho <;> simp at ho
    rw [ho.2]; rfl
  have hpair : ∀ s : List ToneOp, s.length ≤ 1 →
      List.Pairwise (fun o1 o2 => toneIndex o1 < toneIndex o2) s := by
    intro s hs
    match s, hs with
    | [], _ => exact List.Pairwise.nil
    | [a], _ => simp
  refine ⟨?_, ?_, ?_⟩
  · apply List.Pairwise.chain'
    unfold applyFilters
    refine List.pairwise_append.mpr ⟨List.pairwise_append.mpr
      ⟨List.pairwise_append.mpr ⟨?_, ?_, ?_⟩, ?_, ?_⟩, ?_, ?_⟩
    · apply hpair; unfold modulateSeg; split_ifs <;> simp
    · apply hpair; unfold contrastSeg; cases h2 : t.contrast <;> simp
    · intro a ha b hb
      rw [hmod a ha, hcon b hb]; omega
    · apply hpair; unfold blurSeg
      cases h2 : t.blur <;> try simp
      split_ifs <;> simp
    · intro a ha b hb
      rcases List.mem_append.mp ha with h1 | h1
      · rw [hmod a h1, hblur b hb]; omega
      · rw [hcon a h1, hblur b hb]; omega
    · apply hpair; unfold sharpenSeg
      cases h2 : t.sharpen <;> try simp
      split_ifs <;> simp
    · intro a ha b hb
      rcases List.mem_append.mp ha with h1 | h1
      · rcases List.mem_append.mp h1 with h2 | h2
        · rw [hmod a h2, hsharp b hb]; omega
        · rw [hcon a h2, hsharp b hb]; omega
      · rw [hblur a h1, hsharp b hb]; omega
  · unfold applyFilters contrastSeg
    rw [hc]
    simp [List.mem_append]
  · intro h0
    subst h0
    refine ⟨by norm_num, ?_⟩
    intro x hx0 hx255
    unfold linearApply
    norm_num
    rw [min_eq_right hx255, max_eq_right hx0]

/-- Witness for applyFilters_order_and_contrast at the contrast-0
template. -/
theorem applyFilters_order_and_contrast_witness :
    tmplTone.contrast = some 0 ∧
    ToneOp.linear (1 + 0 / 100) (128 * (1 - (1 + 0 / 100))) ∈ applyFilters tmplTone :=
  ⟨rfl, (applyFilters_order_and_contrast tmplTone 0 rfl).2.1⟩

/-- C7: a rendering error inside the Frame or the Watermark stage (the
renderOk oracle false) returns the unmodified input image, and the
success of the full pipeline does not depend on the rendering outcomes
of the two decoration stages, so an Upload is never failed because of
them. -/
theorem decoration_failures_degrade (img : SImage) (t : Template)
    (env : PipelineEnv) (b1 w1 b2 w2 : Bool) :
    applyBox img t false = img ∧ applyWatermark img t false = img ∧
    resultOk (processImageFull env t b1 w1).1 =
      resultOk (processImageFull env t b2 w2).1 := by
  refine ⟨?_, ?_, ?_⟩
  · simp [applyBox]
  · simp [applyWatermark]
  · unfold processImageFull
    cases henv : env.inputImage with
    | none => rfl
    | some img2 =>
      cases hd : applyDimensions img2 t with
      | error e => simp [hd]
      | ok p => cases hf : env.toFileOk <;> simp [hd, hf, resultOk]

/-- C8: the pipeline orchestrator never lets an exception escape: for
every oracle outcome and template it returns either success data carrying
the original dimensions, format and byte size, or a failure with an error
message. -/
theorem processImage_total (env : PipelineEnv) (t : Template) :
    (∃ img d, env.inputImage = some img ∧
      (processImage env t).1 = PipelineResult.success d ∧
      d.originalWidth = img.width ∧ d.originalHeight = img.height ∧
      d.format = t.format ∧ d.size = env.outputSize) ∨
    (∃ e, (processImage env t).1 = PipelineResult.failure e) := by
  cases henv : env.inputImage with
  | none =>
    exact Or.inr ⟨"Input file contains unsupported image format",
      by simp [processImage, henv]⟩
  | some img =>
    cases hd : applyDimensions img t with
    | error e => exact Or.inr ⟨e, by simp [processImage, henv, hd]⟩
    | ok p =>
      cases hf : env.toFileOk with
      | false =>
        exact Or.inr ⟨"unable to write output file", by simp [processImage, henv, hd, hf]⟩
      | true =>
        refine Or.inl ⟨img,
          { originalWidth := img.width, originalHeight := img.height,
            processedWidth := p.width, processedHeight := p.height,
            format := t.format, size := env.outputSize },
          rfl, ?_, rfl, rfl, rfl, rfl⟩
        simp [processImage, henv, hd, hf]

/-- C1 (code bug): on a decodable input and a template that enables tone,
frame and watermark, the orchestrator as shipped executes only the
Geometry stage before writing the output file — the Tone, Frame,
Watermark and Encode calls are commented out in the source — whereas the
same orchestrator with those lines restored executes all five stages in
the documented order. -/
theorem processImage_runs_only_geometry :
    (processImage envOk tmplFull).2 = [Stage.geometry] ∧
    (processImageFull envOk tmplFull true true).2 = fullStageOrder ∧
    [Stage.geometry] ≠ fullStageOrder :=
  ⟨rfl, rfl, by decide⟩

/-- C2 (amended): the Upload record always starts as the pending initial
record; the sequence of distinct statuses it moves through takes only the
transitions pending→processing, pending→completed (runs that skip
processing because no template is attached or the file is not an image),
pending→failed, processing→completed and processing→failed; completed and
failed have no outgoing transitions. -/
theorem uploadSingle_state_machine (env : UploadEnv) :
    ((uploadSingle env).history = [] ∨
      (uploadSingle env).history.head? = some initialRecord) ∧
    List.Chain' (fun a b => codeAllowedStep a b = true) (statusTrace env) ∧
    (∀ s, codeAllowedStep Status.completed s = false ∧
      codeAllowedStep Status.failed s = false) := by
  have hterm : ∀ s, codeAllowedStep Status.completed s = false ∧
      codeAllowedStep Status.failed s = false := by
    intro s; cases s <;> exact ⟨rfl, rfl⟩
  have main : ((uploadSingle env).history = [] ∨
      (uploadSingle env).history.head? = some initialRecord) ∧
      List.Chain' (fun a b => codeAllowedStep a b = true) (statusTrace env) := by
    unfold statusTrace uploadSingle uploadProcessing uploadStorage failRun
    cases hf : env.hasFile
    · simp [squeeze]
    · cases hcr : env.createOk
      · simp [squeeze]
      · cases ht : env.templateId with
        | none =>
          cases hs : env.storageResult <;> cases hu : env.failUpdateOk <;>
            simp [squeeze, codeAllowedStep, List.chain'_cons, initialRecord]
        | some tid =>
          cases htf : env.templateFound with
          | none =>
            cases hu : env.failUpdateOk <;>
              simp [squeeze, codeAllowedStep, List.chain'_cons, initialRecord]
          | some t =>
            cases hm : env.mimeIsImage
            · cases hs : env.storageResult <;> cases hu : env.failUpdateOk <;>
                simp [squeeze, codeAllowedStep, List.chain'_cons, initialRecord]
            · cases hp : (processImage env.pipelineEnv t).1 with
              | failure e =>
                cases hu : env.failUpdateOk <;>
                  simp [hp, squeeze, codeAllowedStep, List.chain'_cons, initialRecord]
              | success d =>
                cases hs : env.storageResult <;> cases hu : env.failUpdateOk <;>
                  simp [hp, squeeze, codeAllowedStep, List.chain'_cons, initialRecord]
  exact ⟨main.1, main.2, hterm⟩

/-- C2 counterexample: with no template attached and a successful storage
call, uploadSingle moves the record straight from pending to completed, a
transition the claimed state machine does not allow. -/
theorem uploadSingle_pending_to_completed :
    statusTrace envNoTemplate = [Status.pending, Status.completed] ∧
    specAllowedStep Status.pending Status.completed = false :=
  ⟨rfl, rfl⟩

/-- C3 (amended): in every stored state of the Upload row, the storage
identifier and storage URL are present exactly in the completed state —
they are persisted together by the update that sets status completed and
never on a failed run — the error detail is present exactly in the failed
state, and the processed dimensions are always persisted together; the
dimensions, however, are written by an earlier update at the end of
processing, not by the completing update. -/
theorem uploadSingle_record_invariants (env : UploadEnv) :
    ∀ r ∈ (uploadSingle env).history,
      (r.cloudinaryId.isSome ↔ r.status = Status.completed) ∧
      (r.cloudinaryUrl.isSome ↔ r.status = Status.completed) ∧
      (r.errorMessage.isSome ↔ r.status = Status.failed) ∧
      (r.processedWidth.isSome ↔ r.processedHeight.isSome) := by
  unfold uploadSingle uploadProcessing uploadStorage failRun
  cases hf : env.hasFile
  · simp
  · cases hcr : env.createOk
    · simp [initialRecord]
    · cases ht : env.templateId with
      | none =>
        cases hs : env.storageResult <;> cases hu : env.failUpdateOk <;>
          simp [initialRecord, List.getLast?]
      | some tid =>
        cases htf : env.templateFound with
        | none =>
          cases hu : env.failUpdateOk <;>
            simp [initialRecord, List.getLast?]
        | some t =>
          cases hm : env.mimeIsImage
          · cases hs : env.storageResult <;> cases hu : env.failUpdateOk <;>
              simp [initialRecord, List.getLast?]
          · cases hp : (processImage env.pipelineEnv t).1 with
            | failure e =>
              cases hu : env.failUpdateOk <;>
                simp [hp, initialRecord, List.getLast?]
            | success d =>
              cases hs : env.storageResult <;> cases hu : env.failUpdateOk <;>
                simp [hp, initialRecord, List.getLast?]

/-- Completed record stored by uploadSingle on the successful templated
fixture run. -/
def recCompleted : UploadRecord :=
  { status := Status.completed, processedPath := some "processed",
    originalWidth := some 1920, originalHeight := some 1080,
    processedWidth := some 1080, processedHeight := some 1080,
    cloudinaryId := some "uploads/abc", cloudinaryUrl := some "https://res.example/abc",
    errorMessage := none }

/-- Witness for uploadSingle_record_invariants at the completed record of
the successful templated fixture run. -/
theorem uploadSingle_record_invariants_witness :
    recCompleted ∈ (uploadSingle envWithTemplate).history ∧
    ((recCompleted.cloudinaryId.isSome ↔ recCompleted.status = Status.completed) ∧
     (recCompleted.cloudinaryUrl.isSome ↔ recCompleted.status = Status.completed) ∧
     (recCompleted.errorMessage.isSome ↔ recCompleted.status = Status.failed) ∧
     (recCompleted.processedWidth.isSome ↔ recCompleted.processedHeight.isSome)) :=
  ⟨by decide,
   uploadSingle_record_invariants envWithTemplate recCompleted (by decide)⟩

/-- C3 counterexample: on a successful templated run there is a stored
state carrying the processed dimensions with no storage identifier, so
the dimensions are not persisted by the update that sets completed. -/
theorem uploadSingle_dims_without_storage :
    ∃ r ∈ (uploadSingle envWithTemplate).history,
      r.processedWidth.isSome = true ∧ r.cloudinaryId = none ∧
      r.status ≠ Status.completed := by decide

/-- C4: a manual crop rectangle exceeding the original bounds makes the
geometry extract fail, the pipeline returns the extract failure, the
Upload record moves pending→processing→failed, and the storage
collaborator is never called. -/
theorem invalid_crop_fails_without_storage (env : UploadEnv) (t : Template)
    (img : SImage) (tid : String)
    (hf : env.hasFile = true) (hcr : env.createOk = true)
    (ht : env.templateId = some tid) (htf : env.templateFound = some t)
    (hm : env.mimeIsImage = true)
    (hmeta : env.pipelineEnv.inputImage = some img)
    (hcrop : cropRequested t = true)
    (hbad : regionFits img (cropRegion t) = false)
    (hu : env.failUpdateOk = true) :
    (processImage env.pipelineEnv t).1 =
      PipelineResult.failure "extract_area: bad extract area" ∧
    statusTrace env = [Status.pending, Status.processing, Status.failed] ∧
    (uploadSingle env).storageCalled = false := by
  have hpi : (processImage env.pipelineEnv t).1 =
      PipelineResult.failure "extract_area: bad extract area" := by
    unfold processImage applyDimensions sharpExtract
    rw [hmeta]
    simp [hcrop, hbad]
  refine ⟨hpi, ?_, ?_⟩
  · unfold statusTrace uploadSingle uploadProcessing failRun
    simp [hf, hcr, ht, htf, hm, hpi, hu, squeeze, initialRecord]
  · unfold uploadSingle uploadProcessing failRun
    simp [hf, hcr, ht, htf, hm, hpi, hu]

/-- Witness for invalid_crop_fails_without_storage: the 5000x5000 crop at
(100, 100) on the 800x600 input. -/
theorem invalid_crop_fails_without_storage_witness :
    (cropRequested tmplCrop = true ∧
     regionFits img800 (cropRegion tmplCrop) = false) ∧
    ((processImage envCrop.pipelineEnv tmplCrop).1 =
       PipelineResult.failure "extract_area: bad extract area" ∧
     statusTrace envCrop = [Status.pending, Status.processing, Status.failed] ∧
     (uploadSingle envCrop).storageCalled = false) :=
  ⟨⟨rfl, rfl⟩,
   invalid_crop_fails_without_storage envCrop tmplCrop img800 "t1"
     rfl rfl rfl rfl rfl rfl rfl rfl rfl⟩

/-- Clearing the default flag leaves the id of every row unchanged. -/
theorem clearDefaults_id (y : Template) :
    (if y.isDefault then { y with isDefault := false } else y).id = y.id := by
  split <;> rfl

/-- After the clearing step no row carries the default flag. -/
theorem clearDefaults_not_default :
    ∀ {db : List Template} (x : Template), x ∈ clearDefaults db → x.isDefault = false := by
  intro db x hx
  unfold clearDefaults at hx
  rcases List.mem_map.mp hx with ⟨y, _, rfl⟩
  split
  · rfl
  · next h => exact Bool.not_eq_true _ |>.mp h

/-- The clearing step preserves the list of ids. -/
theorem clearDefaults_map_id (db : List Template) :
    (clearDefaults db).map (fun t => t.id) = db.map (fun t => t.id) := by
  unfold clearDefaults
  rw [List.map_map]
  exact List.map_congr_left (fun y _ => clearDefaults_id y)

/-- In a store whose ids are unique and contain the requested id, exactly
one row matches that id. -/
theorem countP_id_eq_one {db : List Template} {id : String}
    (hnodup : (db.map (fun t => t.id)).Nodup)
    (hmem : id ∈ db.map (fun t => t.id)) :
    List.countP (fun t => t.id == id) db = 1 := by
  induction db with
  | nil => simp at hmem
  | cons a l ih =>
    simp only [List.map_cons, List.nodup_cons] at hnodup
    rcases hnodup with ⟨hna, hnl⟩
    simp only [List.map_cons, List.mem_cons] at hmem
    rcases hmem with h | h
    · rw [List.countP_cons_of_pos (p := fun t => t.id == id) (a := a) l (by simp [h.symm])]
      have hzero : List.countP (fun t => t.id == id) l = 0 := by
        refine List.countP_eq_zero.mpr ?_
        intro x hx hbeq
        have hxid : x.id = id := by simpa using hbeq
        exact hna (h ▸ hxid ▸ List.mem_map.mpr ⟨x, hx, rfl⟩)
      rw [hzero]
    · have hane : ¬(a.id == id) = true := by
        simp only [beq_iff_eq]
        intro heq
        exact hna (heq ▸ h)
      rw [List.countP_cons_of_neg (p := fun t => t.id == id) (a := a) l hane]
      exact ih hnl h

/-- C9: when setDefaultTemplate succeeds on a store with unique ids, the
returned template carries the default flag and the requested id, and in
the resulting store a template is default exactly when it is the
requested one — so exactly one template is default. -/
theorem setDefaultTemplate_unique_default (db : List Template) (id : String)
    (t1 : Template)
    (hnodup : (db.map (fun t => t.id)).Nodup)
    (hok : (setDefaultTemplate db id).2 = Except.ok t1) :
    t1.isDefault = true ∧ t1.id = id ∧
    (∀ t ∈ (setDefaultTemplate db id).1, (t.isDefault = true ↔ t.id = id)) ∧
    (setDefaultTemplate db id).1.countP (fun t => t.isDefault) = 1 := by
  unfold setDefaultTemplate at hok ⊢
  cases hfind : (clearDefaults db).find? (fun t => t.id == id) with
  | none =>
    rw [hfind] at hok
    exact absurd hok (by simp)
  | some t0 =>
    rw [hfind] at hok
    simp only [Except.ok.injEq] at hok
    have ht0id : t0.id = id := by
      have := List.find?_some hfind
      simpa using this
    have ht0mem : t0 ∈ clearDefaults db := List.mem_of_find?_eq_some hfind
    have ht1 : t1 = { t0 with isDefault := true, isActive := true } := hok.symm
    subst ht1
    simp only [hfind]
    set res := (clearDefaults db).map
      (fun t => if t.id = id then { t0 with isDefault := true, isActive := true } else t)
      with hres
    have hchar : ∀ t ∈ res, (t.isDefault = true ↔ t.id = id) := by
      intro t htm
      rw [hres] at htm
      rcases List.mem_map.mp htm with ⟨x, hx, rfl⟩
      by_cases hxid : x.id = id
      · simp [hxid, ht0id]
      · simp only [hxid, if_false]
        rw [clearDefaults_not_default x hx]
        simp [hxid]
    refine ⟨by trivial, ht0id, hchar, ?_⟩
    have hmapid : res.map (fun t => t.id) = db.map (fun t => t.id) := by
      rw [hres, List.map_map, ← clearDefaults_map_id db]
      refine List.map_congr_left ?_
      intro x _
      by_cases hxid : x.id = id
      · simp [hxid, ht0id]
      · simp [hxid]
    have hcongr : List.countP (fun t => t.isDefault) res =
        List.countP (fun t => t.id == id) res := by
      refine List.countP_congr ?_
      intro x hx
      have h1 := hchar x hx
      constructor
      · intro h2
        exact beq_iff_eq.mpr (h1.mp h2)
      · intro h2
        exact h1.mpr (beq_iff_eq.mp h2)
    rw [hcongr]
    refine countP_id_eq_one ?_ ?_
    · rw [hmapid]
      exact hnodup
    · rw [hmapid, ← clearDefaults_map_id db]
      exact List.mem_map.mpr ⟨t0, ht0mem, ht0id⟩

/-- Stored template row with id "a", currently the default. -/
def tmplA : Template :=
  { tmplBase with
    id := "a"
    name := "Template A"
    isDefault := true }

/-- Stored template row with id "b", inactive and not default. -/
def tmplB : Template :=
  { tmplBase with
    id := "b"
    name := "Template B"
    isDefault := false
    isActive := false }

/-- Two-row template store fixture. -/
def dbPair : List Template := [tmplA, tmplB]

/-- The row setDefaultTemplate returns when asked to make "b" the
default. -/
def tmplBDefault : Template :=
  { tmplB with
    isDefault := true
    isActive := true }

/-- Witness for setDefaultTemplate_unique_default on the two-row store:
making "b" the default leaves exactly one default row, namely "b". -/
theorem setDefaultTemplate_unique_default_witness :
    ((dbPair.map (fun t => t.id)).Nodup ∧
     (setDefaultTemplate dbPair "b").2 = Except.ok tmplBDefault) ∧
    (tmplBDefault.isDefault = true ∧ tmplBDefault.id = "b" ∧
     (∀ t ∈ (setDefaultTemplate dbPair "b").1, (t.isDefault = true ↔ t.id = "b")) ∧
     (setDefaultTemplate dbPair "b").1.countP (fun t => t.isDefault) = 1) :=
  ⟨⟨by decide, by rfl⟩,
   setDefaultTemplate_unique_default dbPair "b" tmplBDefault (by decide) (by rfl)⟩

/-- C10: deleteTemplate refuses to delete a template with associated
uploads — returning a failure that names the upload count and leaving the
store unchanged — and it only deletes when the template has zero
associated uploads, in which case exactly the requested row is removed. -/
theorem deleteTemplate_requires_no_uploads (templates : List Template)
    (uploads : List UploadRow) (id : String) :
    (0 < uploads.countP (fun u => u.templateId == some id) →
      (deleteTemplate templates uploads id).1 = templates ∧
      (deleteTemplate templates uploads id).2 =
        Except.error ("Cannot delete template. It has " ++
          toString (uploads.countP (fun u => u.templateId == some id)) ++
          " associated uploads.")) ∧
    (∀ m, (deleteTemplate templates uploads id).2 = Except.ok m →
      uploads.countP (fun u => u.templateId == some id) = 0 ∧
      (deleteTemplate templates uploads id).1 =
        templates.filter (fun t => !(t.id == id))) := by
  unfold deleteTemplate
  by_cases hc : 0 < uploads.countP (fun u => u.templateId == some id)
  · rw [if_pos hc]
    exact ⟨fun _ => ⟨rfl, rfl⟩, fun m hm => absurd hm (by simp)⟩
  · rw [if_neg hc]
    have hz : uploads.countP (fun u => u.templateId == some id) = 0 := by omega
    by_cases ha : templates.any (fun t => t.id == id) = true
    · rw [if_pos ha]
      exact ⟨fun h => absurd h hc, fun m _ => ⟨hz, rfl⟩⟩
    · rw [if_neg ha]
      exact ⟨fun h => absurd h hc, fun m hm => absurd hm (by simp)⟩

/-- One upload row referencing template "a". -/
def uploadsA : List UploadRow := [{ id := "u1", templateId := some "a" }]

/-- Witness for deleteTemplate_requires_no_uploads: deleting "a" while
one upload references it fails naming the count and leaves the store
unchanged. -/
theorem deleteTemplate_requires_no_uploads_witness :
    0 < uploadsA.countP (fun u => u.templateId == some "a") ∧
    ((deleteTemplate dbPair uploadsA "a").1 = dbPair ∧
     (deleteTemplate dbPair uploadsA "a").2 =
       Except.error ("Cannot delete template. It has " ++
         toString (uploadsA.countP (fun u => u.templateId == some "a")) ++
         " associated uploads.")) :=
  ⟨by decide,
   (deleteTemplate_requires_no_uploads dbPair uploadsA "a").1 (by decide)⟩

end DigitalSign
